import Mathlib

/-!
Verification of the event read-model, RSVP toggle, filtering and caching
logic of the sports_app repository (EventsContext provider, events feed
filter, firebase service decode).  Times are modelled as integer
milliseconds, backend timestamps as a wrapper around them, and the
backend array operations arrayUnion / arrayRemove by their documented
semantics (union appends the element when absent; remove deletes every
occurrence).
-/

namespace SportsApp

/-- JS Date values, modelled as integer milliseconds since the epoch. -/
abbrev Millis := Int

/-- Backend (Firestore) timestamp representation stored in documents. -/
structure Timestamp where
  millis : Millis
deriving DecidableEq, Repr

/-- The toDate conversion from the backend timestamp to a native Date. -/
def Timestamp.toDate (t : Timestamp) : Millis := t.millis

/-- EventType from types/index.ts: Yoga, Run, Match. -/
inductive EventType
  | Yoga | Run | Match
deriving DecidableEq, Repr

/-- DifficultyLevel from types/index.ts (nine values). -/
inductive DifficultyLevel
  | Beginner | Intermediate | Advanced | AllAges | Low | High | Mixed | Amateur | FamilyKids
deriving DecidableEq, Repr

/-- Geographic coordinates; numeric values modelled as rationals. -/
structure Coordinates where
  latitude : Rat
  longitude : Rat
deriving DecidableEq, Repr

/-- EventLocation from types/index.ts. -/
structure EventLocation where
  address : String
  coordinates : Coordinates
deriving DecidableEq, Repr

/-- The Event entity from types/index.ts. -/
structure Event where
  id : String
  title : String
  type : EventType
  dateTime : Millis
  duration : Nat
  location : EventLocation
  difficulty : DifficultyLevel
  imageURL : Option String
  description : String
  shortDescription : String
  hostId : String
  hostName : String
  rsvpCount : Int
  rsvpList : List String
  createdAt : Millis
  updatedAt : Millis
deriving DecidableEq, Repr

/-- User role from types/index.ts. -/
inductive Role
  | user | organizer
deriving DecidableEq, Repr

/-- The User entity from types/index.ts. -/
structure User where
  uid : String
  email : String
  displayName : String
  photoURL : Option String
  bio : Option String
  role : Role
  createdAt : Millis
  updatedAt : Millis
deriving DecidableEq, Repr

/-- Errors thrown by the EventsContext operations, by the taxonomy of the
spec; the payload is the message string of the Error the code throws. -/
inductive AppError
  | authenticationRequired (msg : String)
  | notFound (msg : String)
  | permissionDenied (msg : String)
deriving DecidableEq, Repr

/-- A Firestore array field transform appearing in an update payload. -/
inductive ArrayOp
  | arrayUnion (x : String)
  | arrayRemove (x : String)
deriving DecidableEq, Repr

/-- The single updateDoc payload that toggleRSVP issues: both attendance
fields and updatedAt travel in one write. -/
structure RsvpUpdate where
  rsvpListOp : ArrayOp
  rsvpCount : Int
  updatedAt : Millis
deriving DecidableEq, Repr

/-- Documented backend semantics of the array transforms: arrayUnion
appends the element only when it is absent, arrayRemove deletes all
occurrences. -/
def applyArrayOp (op : ArrayOp) (l : List String) : List String :=
  match op with
  | .arrayUnion x => if l.contains x then l else l ++ [x]
  | .arrayRemove x => l.filter (fun y => y != x)

/-- Effect of an RsvpUpdate write on the targeted event document. -/
def applyRsvpUpdate (upd : RsvpUpdate) (e : Event) : Event :=
  { e with
    rsvpList := applyArrayOp upd.rsvpListOp e.rsvpList
    rsvpCount := upd.rsvpCount
    updatedAt := upd.updatedAt }

/-- toggleRSVP from the EventsContext provider, as the pure decision it
makes: given the caller, the in-memory list, the event id and the current
time, it either throws (User must be logged in / Event not found) or
produces the single updateDoc payload of the taken branch. -/
def toggleRSVP (user : Option User) (events : List Event) (eventId : String)
    (now : Millis) : Except AppError RsvpUpdate :=
  match user with
  | none => .error (.authenticationRequired "User must be logged in")
  | some u =>
    match events.find? (fun e => e.id == eventId) with
    | none => .error (.notFound "Event not found")
    | some event =>
      if event.rsvpList.contains u.uid then
        .ok { rsvpListOp := .arrayRemove u.uid
              rsvpCount := event.rsvpCount - 1
              updatedAt := now }
      else
        .ok { rsvpListOp := .arrayUnion u.uid
              rsvpCount := event.rsvpCount + 1
              updatedAt := now }

/-- The update payload toggleRSVP produces for an event it found. -/
def toggleUpdate (u : User) (e : Event) (now : Millis) : RsvpUpdate :=
  if e.rsvpList.contains u.uid then
    { rsvpListOp := .arrayRemove u.uid, rsvpCount := e.rsvpCount - 1, updatedAt := now }
  else
    { rsvpListOp := .arrayUnion u.uid, rsvpCount := e.rsvpCount + 1, updatedAt := now }

/-- The event document after the toggle write lands on the same state the
decision was computed from. -/
def toggleResult (u : User) (e : Event) (now : Millis) : Event :=
  applyRsvpUpdate (toggleUpdate u e now) e

/-- One toggle by user u against event e (the list holding just that
event), with the resulting write applied to the document. -/
def toggleOnEvent (u : User) (e : Event) (now : Millis) : Except AppError Event :=
  (toggleRSVP (some u) [e] e.id now).map (fun upd => applyRsvpUpdate upd e)

/-- A sequence of RSVP toggles (each by a non-null user at some time)
played against a single event document. -/
def runToggles (e : Event) (ops : List (User × Millis)) : Event :=
  ops.foldl
    (fun acc p =>
      match toggleOnEvent p.1 acc p.2 with
      | .ok e2 => e2
      | .error _ => acc)
    e

/-- The attendance invariant: the counter equals the list length, and the
list is duplicate-free. -/
def rsvpOk (e : Event) : Prop :=
  e.rsvpCount = e.rsvpList.length ∧ e.rsvpList.Nodup

instance : DecidablePred rsvpOk := fun e => by
  unfold rsvpOk
  infer_instance

/-! ## Snapshot decoding and the provider state -/

/-- Body of an event document as stored in the backend: the three date
fields are backend timestamps, and the body may additionally carry its
own id field (bodyId), which a well-formed document does not. -/
structure EventDoc where
  bodyId : Option String
  title : String
  type : EventType
  dateTime : Timestamp
  duration : Nat
  location : EventLocation
  difficulty : DifficultyLevel
  imageURL : Option String
  description : String
  shortDescription : String
  hostId : String
  hostName : String
  rsvpCount : Int
  rsvpList : List String
  createdAt : Timestamp
  updatedAt : Timestamp
deriving DecidableEq, Repr

/-- One document of a delivered snapshot: the backend-assigned identifier
plus the document body. -/
structure SnapshotDoc where
  docId : String
  body : EventDoc
deriving DecidableEq, Repr

/-- Decode of one document, from the object literal in the onSnapshot
handler (and, identically, in FirebaseService.getEvents / getEvent):
the literal lists id := docId first, then spreads the body, then
overwrites the three date fields with their toDate conversions.  A later
spread property wins over an earlier one, so a bodyId present in the body
replaces the backend identifier, while the date conversions, written
after the spread, always win. -/
def decodeDoc (docId : String) (d : EventDoc) : Event :=
  { id := match d.bodyId with
          | some i => i
          | none => docId
    title := d.title
    type := d.type
    dateTime := d.dateTime.toDate
    duration := d.duration
    location := d.location
    difficulty := d.difficulty
    imageURL := d.imageURL
    description := d.description
    shortDescription := d.shortDescription
    hostId := d.hostId
    hostName := d.hostName
    rsvpCount := d.rsvpCount
    rsvpList := d.rsvpList
    createdAt := d.createdAt.toDate
    updatedAt := d.updatedAt.toDate }

/-- Decoding a whole snapshot, in delivery order. -/
def decodeSnapshot (docs : List SnapshotDoc) : List Event :=
  docs.map (fun d => decodeDoc d.docId d.body)

/-- The provider state: the in-memory event list, the loading flag, and
the decoded content of the events key of the local durable cache. -/
structure ProviderState where
  events : List Event
  loading : Bool
  cache : Option (List Event)
deriving DecidableEq, Repr

/-- The success callback of the onSnapshot subscription: decode the
snapshot, replace the in-memory list wholesale, clear loading, and write
the same decoded list to the cache. -/
def onSnapshotNext (st : ProviderState) (docs : List SnapshotDoc) : ProviderState :=
  let eventsData := decodeSnapshot docs
  { st with events := eventsData, loading := false, cache := some eventsData }

/-- The subscription query orders the events collection by dateTime
ascending, so a delivered snapshot is nondecreasing in the stored
dateTime field. -/
def snapshotSorted (docs : List SnapshotDoc) : Prop :=
  docs.Pairwise (fun a b => a.body.dateTime.millis ≤ b.body.dateTime.millis)

/-- An event list sorted ascending by dateTime. -/
def eventsSorted (l : List Event) : Prop :=
  l.Pairwise (fun a b => a.dateTime ≤ b.dateTime)

/-! ## Cache hydration -/

/-- An event as it sits in the serialized cache blob: same fields, the
date fields being the wire values handed back to the Date constructor. -/
structure StoredEvent where
  id : String
  title : String
  type : EventType
  dateTime : Millis
  duration : Nat
  location : EventLocation
  difficulty : DifficultyLevel
  imageURL : Option String
  description : String
  shortDescription : String
  hostId : String
  hostName : String
  rsvpCount : Int
  rsvpList : List String
  createdAt : Millis
  updatedAt : Millis
deriving DecidableEq, Repr

/-- The map in loadCachedEvents: spread the stored event and rebuild the
three date fields with the Date constructor. -/
def reviveStored (s : StoredEvent) : Event :=
  { id := s.id
    title := s.title
    type := s.type
    dateTime := s.dateTime
    duration := s.duration
    location := s.location
    difficulty := s.difficulty
    imageURL := s.imageURL
    description := s.description
    shortDescription := s.shortDescription
    hostId := s.hostId
    hostName := s.hostName
    rsvpCount := s.rsvpCount
    rsvpList := s.rsvpList
    createdAt := s.createdAt
    updatedAt := s.updatedAt }

/-- The possible contents of the events key of the local durable cache,
partitioned by what reading and parsing it yields: the key is absent
(getItem returns null), the blob does not parse as JSON, or it parses to
a list of stored events. -/
inductive CachedRead
  | absent
  | corrupt
  | valid (stored : List StoredEvent)
deriving DecidableEq, Repr

/-- The try block of loadCachedEvents: read the key; when present, parse
it (a corrupt blob makes JSON.parse throw) and revive the dates. -/
def loadCachedEventsBody (read : CachedRead) : Except String (Option (List Event)) :=
  match read with
  | .absent => .ok none
  | .corrupt => .error "JSON parse failure"
  | .valid stored => .ok (some (stored.map reviveStored))

/-- loadCachedEvents from the provider: the whole body runs inside a
try/catch whose catch only logs, so a parse failure leaves the state
untouched; an absent key skips the update; a parsed list replaces the
in-memory events. -/
def loadCachedEvents (st : ProviderState) (read : CachedRead) : ProviderState :=
  match loadCachedEventsBody read with
  | .ok (some evs) => { st with events := evs }
  | .ok none => st
  | .error _ => st

/-! ## Backend writes, refreshEvents, createEvent, effect wrappers -/

/-- The fields of the document addDoc writes for a new event (everything
of an Event except the id, which the backend assigns). -/
structure NewEventDoc where
  title : String
  type : EventType
  dateTime : Millis
  duration : Nat
  location : EventLocation
  difficulty : DifficultyLevel
  imageURL : Option String
  description : String
  shortDescription : String
  hostId : String
  hostName : String
  rsvpCount : Int
  rsvpList : List String
  createdAt : Millis
  updatedAt : Millis
deriving DecidableEq, Repr

/-- The caller-supplied part of createEvent input (Event minus id, host
fields, attendance fields and audit fields). -/
structure EventInput where
  title : String
  type : EventType
  dateTime : Millis
  duration : Nat
  location : EventLocation
  difficulty : DifficultyLevel
  imageURL : Option String
  description : String
  shortDescription : String
deriving DecidableEq, Repr

/-- A backend document write issued by a provider operation. -/
inductive BackendOp
  | updateEvent (eventId : String) (upd : RsvpUpdate)
  | addEvent (d : NewEventDoc)
deriving DecidableEq, Repr

/-- refreshEvents from the provider: it only sets the loading flag to
true and relies on the live subscription; it issues no backend call and
touches neither the list nor the cache. -/
def refreshEventsRun (st : ProviderState) : ProviderState × List BackendOp :=
  ({ st with loading := true }, [])

/-- The const newEvent literal of createEvent: spread the caller-supplied
data, add the host fields from the caller and attendance and audit
fields. -/
def newEvent (u : User) (d : EventInput) (now : Millis) : NewEventDoc :=
  { title := d.title
    type := d.type
    dateTime := d.dateTime
    duration := d.duration
    location := d.location
    difficulty := d.difficulty
    imageURL := d.imageURL
    description := d.description
    shortDescription := d.shortDescription
    hostId := u.uid
    hostName := u.displayName
    rsvpCount := 0
    rsvpList := []
    createdAt := now
    updatedAt := now }

/-- createEvent from the provider: reject a null caller, reject a caller
whose role is not organizer, otherwise build the new document (attendance
fields born consistent, host fields from the caller) and write it with a
single addDoc. -/
def createEvent (user : Option User) (d : EventInput) (now : Millis) :
    Except AppError NewEventDoc × List BackendOp :=
  match user with
  | none => (.error (.authenticationRequired "User must be logged in"), [])
  | some u =>
    if u.role ≠ Role.organizer then
      (.error (.permissionDenied "Only organizers can create events"), [])
    else
      (.ok (newEvent u d now), [.addEvent (newEvent u d now)])

/-- toggleRSVP as a provider operation: its body never calls setEvents or
setLoading, so the state passes through unchanged; on success it issues
exactly the one updateDoc of the taken branch, on failure nothing. -/
def toggleRSVPRun (st : ProviderState) (user : Option User) (eventId : String)
    (now : Millis) : Except AppError Unit × ProviderState × List BackendOp :=
  match toggleRSVP user st.events eventId now with
  | .error e => (.error e, st, [])
  | .ok upd => (.ok (), st, [.updateEvent eventId upd])

/-! ## Search and filter projection (EventsFeed) -/

/-- JS String.prototype.includes: substring containment. -/
def jsIncludes (s sub : String) : Bool :=
  decide (sub.toList <:+: s.toList)

/-- JS String.prototype.trim: strip whitespace from both ends. -/
def jsTrim (s : String) : String :=
  String.mk ((s.data.dropWhile Char.isWhitespace).reverse.dropWhile
    Char.isWhitespace).reverse

/-- The search predicate of the feed: case-insensitive substring match of
the query against title, description, and location address. -/
def searchPred (q : String) (e : Event) : Bool :=
  jsIncludes e.title.toLower q.toLower ||
  jsIncludes e.description.toLower q.toLower ||
  jsIncludes e.location.address.toLower q.toLower

/-- The filter configuration of the feed (the filters state object). -/
structure Filters where
  type : Option EventType
  difficulty : Option DifficultyLevel
  dateRange : Option (Millis × Millis)
deriving DecidableEq, Repr

/-- The filter pipeline of the feed useEffect: start from the full list;
when the trimmed query is nonempty filter by the search predicate; when a
type is set keep only events of that type; when a difficulty is set keep
only events of that difficulty; when a date range is set keep only events
whose dateTime lies in the inclusive range. -/
def applyFilters (events : List Event) (searchQuery : String) (f : Filters) :
    List Event :=
  let filtered := events
  let filtered :=
    if jsTrim searchQuery ≠ "" then filtered.filter (searchPred searchQuery)
    else filtered
  let filtered :=
    match f.type with
    | some t => filtered.filter (fun e => e.type == t)
    | none => filtered
  let filtered :=
    match f.difficulty with
    | some d => filtered.filter (fun e => e.difficulty == d)
    | none => filtered
  let filtered :=
    match f.dateRange with
    | some r =>
      filtered.filter (fun e => decide (r.1 ≤ e.dateTime) && decide (e.dateTime ≤ r.2))
    | none => filtered
  filtered

/-- The conjunction of the four stage predicates, with an always-true
conjunct for an unset stage. -/
def totalPred (searchQuery : String) (f : Filters) (e : Event) : Bool :=
  (if jsTrim searchQuery ≠ "" then searchPred searchQuery e else true) &&
  (match f.type with | some t => e.type == t | none => true) &&
  (match f.difficulty with | some d => e.difficulty == d | none => true) &&
  (match f.dateRange with
   | some r => decide (r.1 ≤ e.dateTime) && decide (e.dateTime ≤ r.2)
   | none => true)

/-! ## Concrete fixtures (after the mock of the RSVP unit tests) -/

/-- The mock event of the RSVP unit tests, with chosen attendance fields
(coordinates collapsed to the not-geocoded sentinel so that kernel
evaluation stays cheap). -/
def mockEvent (count : Int) (l : List String) : Event :=
  { id := "test-event-1"
    title := "Test Yoga Session"
    type := EventType.Yoga
    dateTime := 1764612000000
    duration := 60
    location := { address := "Test Park, Test City"
                  coordinates := { latitude := 0, longitude := 0 } }
    difficulty := DifficultyLevel.Beginner
    imageURL := some ""
    description := "Test event description"
    shortDescription := "Test short description"
    hostId := "host-user-id"
    hostName := "Test Organizer"
    rsvpCount := count
    rsvpList := l
    createdAt := 1735725600000
    updatedAt := 1735725600000 }

/-- A user with the given uid (attendee role). -/
def mkUser (uid : String) : User :=
  { uid := uid, email := "", displayName := uid, photoURL := none, bio := none
    role := Role.user, createdAt := 0, updatedAt := 0 }

/-- A user with the given uid and the organizer role. -/
def mkOrganizer (uid : String) : User :=
  { uid := uid, email := "", displayName := uid, photoURL := none, bio := none
    role := Role.organizer, createdAt := 0, updatedAt := 0 }

/-- A concrete remote document whose body carries its own id field. -/
def bodyIdDoc : EventDoc :=
  { bodyId := some "body-id"
    title := "Morning Yoga"
    type := EventType.Yoga
    dateTime := { millis := 1000 }
    duration := 60
    location := { address := "Main Park"
                  coordinates := { latitude := 0, longitude := 0 } }
    difficulty := DifficultyLevel.Beginner
    imageURL := none
    description := "desc"
    shortDescription := "short"
    hostId := "h1"
    hostName := "Host One"
    rsvpCount := 0
    rsvpList := []
    createdAt := { millis := 10 }
    updatedAt := { millis := 20 } }

/-- The same document without an id field in the body. -/
def plainDoc : EventDoc :=
  { bodyIdDoc with bodyId := none }

/-! ## Helper lemmas about the toggle operation -/

theorem find_self_singleton (e : Event) :
    List.find? (fun x => x.id == e.id) [e] = some e := by
  simp [List.find?]

theorem toggleRSVP_singleton (u : User) (e : Event) (now : Millis) :
    toggleRSVP (some u) [e] e.id now = .ok (toggleUpdate u e now) := by
  unfold toggleRSVP toggleUpdate
  rw [find_self_singleton]
  by_cases hm : u.uid ∈ e.rsvpList
  · simp [hm]
  · simp [hm]

theorem toggleOnEvent_eq (u : User) (e : Event) (now : Millis) :
    toggleOnEvent u e now = .ok (toggleResult u e now) := by
  unfold toggleOnEvent toggleResult
  rw [toggleRSVP_singleton]
  rfl

theorem toggleResult_remove (u : User) (e : Event) (now : Millis)
    (hm : u.uid ∈ e.rsvpList) :
    toggleResult u e now =
      { e with rsvpList := e.rsvpList.filter (fun y => y != u.uid)
               rsvpCount := e.rsvpCount - 1
               updatedAt := now } := by
  unfold toggleResult toggleUpdate applyRsvpUpdate applyArrayOp
  simp [hm]

theorem toggleResult_add (u : User) (e : Event) (now : Millis)
    (hm : u.uid ∉ e.rsvpList) :
    toggleResult u e now =
      { e with rsvpList := e.rsvpList ++ [u.uid]
               rsvpCount := e.rsvpCount + 1
               updatedAt := now } := by
  unfold toggleResult toggleUpdate applyRsvpUpdate applyArrayOp
  simp [hm]

theorem rsvpOk_toggleResult (u : User) (e : Event) (now : Millis)
    (h : rsvpOk e) : rsvpOk (toggleResult u e now) := by
  obtain ⟨hc, hn⟩ := h
  by_cases hm : u.uid ∈ e.rsvpList
  · rw [toggleResult_remove u e now hm]
    have herase := hn.erase_eq_filter u.uid
    constructor
    · show e.rsvpCount - 1 = ((e.rsvpList.filter (fun y => y != u.uid)).length : Int)
      rw [← herase]
      have hlen := List.length_erase_add_one hm
      omega
    · show (e.rsvpList.filter (fun y => y != u.uid)).Nodup
      exact hn.filter _
  · rw [toggleResult_add u e now hm]
    constructor
    · show e.rsvpCount + 1 = ((e.rsvpList ++ [u.uid]).length : Int)
      simp
      omega
    · show (e.rsvpList ++ [u.uid]).Nodup
      rw [List.nodup_append]
      refine ⟨hn, List.nodup_singleton _, ?_⟩
      intro x hx hxs
      rw [List.mem_singleton] at hxs
      exact hm (hxs ▸ hx)

theorem runToggles_nil (e : Event) : runToggles e [] = e := rfl

theorem runToggles_cons (e : Event) (p : User × Millis) (ops : List (User × Millis)) :
    runToggles e (p :: ops) = runToggles (toggleResult p.1 e p.2) ops := by
  unfold runToggles
  rw [List.foldl_cons, toggleOnEvent_eq]

theorem runToggles_append_one (e : Event) (pre : List (User × Millis))
    (p : User × Millis) :
    runToggles e (pre ++ [p]) = toggleResult p.1 (runToggles e pre) p.2 := by
  unfold runToggles
  rw [List.foldl_append]
  simp [toggleOnEvent_eq]

theorem rsvpOk_runToggles (e : Event) (ops : List (User × Millis))
    (h : rsvpOk e) : rsvpOk (runToggles e ops) := by
  induction ops generalizing e with
  | nil => exact h
  | cons p rest ih =>
    rw [runToggles_cons]
    exact ih _ (rsvpOk_toggleResult p.1 e p.2 h)

/-! ## Helper lemmas about the filter pipeline -/

theorem applyFilters_eq_filter (l : List Event) (q : String) (f : Filters) :
    applyFilters l q f = l.filter (totalPred q f) := by
  unfold applyFilters totalPred
  rcases f with ⟨t, d, r⟩
  by_cases hq : jsTrim q = "" <;>
    cases t <;> cases d <;> cases r <;>
      simp [hq, List.filter_filter, Bool.and_assoc, Bool.and_comm, Bool.and_left_comm]

theorem toggleRSVP_of_find (u : User) (events : List Event) (eventId : String)
    (e : Event) (now : Millis)
    (hfind : events.find? (fun x => x.id == eventId) = some e) :
    toggleRSVP (some u) events eventId now = .ok (toggleUpdate u e now) := by
  unfold toggleRSVP toggleUpdate
  rw [hfind]
  by_cases hm : u.uid ∈ e.rsvpList
  · simp [hm]
  · simp [hm]

/-! ## C1 -/

/-- C1: for an event whose rsvpCount equals the length of its
duplicate-free rsvpList, every sequence of RSVP toggles by non-null users
keeps that invariant after each toggle, and each toggle is one update
payload carrying the list operation and the counter together. -/
theorem C1_rsvp_invariant (e : Event) (ops : List (User × Millis))
    (h : e.rsvpCount = (e.rsvpList.length : Int) ∧ e.rsvpList.Nodup) :
    ∀ pre u t suf, ops = pre ++ (u, t) :: suf →
      ∃ upd : RsvpUpdate,
        toggleRSVP (some u) [runToggles e pre] (runToggles e pre).id t =
          Except.ok upd ∧
        runToggles e (pre ++ [(u, t)]) = applyRsvpUpdate upd (runToggles e pre) ∧
        (runToggles e (pre ++ [(u, t)])).rsvpCount =
          ((runToggles e (pre ++ [(u, t)])).rsvpList.length : Int) ∧
        (runToggles e (pre ++ [(u, t)])).rsvpList.Nodup := by
  intro pre u t suf hsplit
  have hpre : rsvpOk (runToggles e pre) := rsvpOk_runToggles e pre h
  refine ⟨toggleUpdate u (runToggles e pre) t,
    toggleRSVP_singleton u (runToggles e pre) t, ?_, ?_⟩
  · rw [runToggles_append_one]
    rfl
  · rw [runToggles_append_one]
    exact rsvpOk_toggleResult u (runToggles e pre) t hpre

/-- C1 witness: the invariant hypothesis holds of the mock event with two
attendees, and one toggle by a third user is a single consistent write. -/
theorem C1_rsvp_invariant_witness :
    ((mockEvent 2 ["user1", "user2"]).rsvpCount =
        ((mockEvent 2 ["user1", "user2"]).rsvpList.length : Int) ∧
      (mockEvent 2 ["user1", "user2"]).rsvpList.Nodup) ∧
    ∃ upd : RsvpUpdate,
      toggleRSVP (some (mkUser "user3"))
          [runToggles (mockEvent 2 ["user1", "user2"]) []]
          (runToggles (mockEvent 2 ["user1", "user2"]) []).id 5 =
        Except.ok upd ∧
      runToggles (mockEvent 2 ["user1", "user2"]) [(mkUser "user3", 5)] =
        applyRsvpUpdate upd (runToggles (mockEvent 2 ["user1", "user2"]) []) ∧
      (runToggles (mockEvent 2 ["user1", "user2"]) [(mkUser "user3", 5)]).rsvpCount =
        ((runToggles (mockEvent 2 ["user1", "user2"])
            [(mkUser "user3", 5)]).rsvpList.length : Int) ∧
      (runToggles (mockEvent 2 ["user1", "user2"]) [(mkUser "user3", 5)]).rsvpList.Nodup :=
  ⟨by decide,
    C1_rsvp_invariant (mockEvent 2 ["user1", "user2"]) [(mkUser "user3", 5)]
      (by decide) [] (mkUser "user3") 5 [] rfl⟩

/-! ## C2 -/

/-- C2: when the lookup finds event e, a toggle by a caller already in
its rsvpList is one update removing that uid, decrementing the counter by
one and refreshing updatedAt; a toggle by an absent caller is one update
appending the uid (never a duplicate), incrementing the counter by one
and refreshing updatedAt.  The two concrete scenarios of the spec are
stated as closed conjuncts. -/
theorem C2_toggle_branches (events : List Event) (u : User) (eventId : String)
    (e : Event) (now : Millis)
    (hfind : events.find? (fun x => x.id == eventId) = some e) :
    (u.uid ∈ e.rsvpList →
      toggleRSVP (some u) events eventId now =
        Except.ok { rsvpListOp := ArrayOp.arrayRemove u.uid
                    rsvpCount := e.rsvpCount - 1
                    updatedAt := now } ∧
      (toggleResult u e now).rsvpList = e.rsvpList.filter (fun y => y != u.uid) ∧
      (toggleResult u e now).rsvpCount = e.rsvpCount - 1 ∧
      (toggleResult u e now).updatedAt = now ∧
      u.uid ∉ (toggleResult u e now).rsvpList) ∧
    (u.uid ∉ e.rsvpList →
      toggleRSVP (some u) events eventId now =
        Except.ok { rsvpListOp := ArrayOp.arrayUnion u.uid
                    rsvpCount := e.rsvpCount + 1
                    updatedAt := now } ∧
      (toggleResult u e now).rsvpList = e.rsvpList ++ [u.uid] ∧
      (toggleResult u e now).rsvpCount = e.rsvpCount + 1 ∧
      (toggleResult u e now).updatedAt = now ∧
      (toggleResult u e now).rsvpList.count u.uid = 1) ∧
    (∃ r : Event,
      toggleOnEvent (mkUser "u3") (mockEvent 2 ["u1", "u2"]) 0 = Except.ok r ∧
      r.rsvpCount = 3 ∧ r.rsvpList = ["u1", "u2", "u3"]) ∧
    (∃ r : Event,
      toggleOnEvent (mkUser "u2") (mockEvent 3 ["u1", "u2", "u3"]) 0 = Except.ok r ∧
      r.rsvpCount = 2 ∧ r.rsvpList = ["u1", "u3"]) := by
  refine ⟨?_, ?_, ?_, ?_⟩
  · intro hm
    have hupd : toggleUpdate u e now =
        { rsvpListOp := ArrayOp.arrayRemove u.uid
          rsvpCount := e.rsvpCount - 1
          updatedAt := now } := by
      unfold toggleUpdate
      simp [hm]
    refine ⟨?_, ?_, ?_, ?_, ?_⟩
    · rw [toggleRSVP_of_find u events eventId e now hfind, hupd]
    · rw [toggleResult_remove u e now hm]
    · rw [toggleResult_remove u e now hm]
    · rw [toggleResult_remove u e now hm]
    · rw [toggleResult_remove u e now hm]
      simp
  · intro hm
    have hupd : toggleUpdate u e now =
        { rsvpListOp := ArrayOp.arrayUnion u.uid
          rsvpCount := e.rsvpCount + 1
          updatedAt := now } := by
      unfold toggleUpdate
      simp [hm]
    refine ⟨?_, ?_, ?_, ?_, ?_⟩
    · rw [toggleRSVP_of_find u events eventId e now hfind, hupd]
    · rw [toggleResult_add u e now hm]
    · rw [toggleResult_add u e now hm]
    · rw [toggleResult_add u e now hm]
    · rw [toggleResult_add u e now hm]
      have hz : e.rsvpList.count u.uid = 0 := List.count_eq_zero.mpr hm
      simp [List.count_append, hz]
  · exact ⟨toggleResult (mkUser "u3") (mockEvent 2 ["u1", "u2"]) 0,
      toggleOnEvent_eq (mkUser "u3") (mockEvent 2 ["u1", "u2"]) 0,
      by decide, by decide⟩
  · exact ⟨toggleResult (mkUser "u2") (mockEvent 3 ["u1", "u2", "u3"]) 0,
      toggleOnEvent_eq (mkUser "u2") (mockEvent 3 ["u1", "u2", "u3"]) 0,
      by decide, by decide⟩

/-- C2 witness: the lookup hypothesis is satisfied by a one-event list,
and both branch implications fire on concrete attendance states. -/
theorem C2_toggle_branches_witness :
    [mockEvent 3 ["u1", "u2", "u3"]].find?
        (fun x => x.id == "test-event-1") = some (mockEvent 3 ["u1", "u2", "u3"]) ∧
    (mkUser "u2").uid ∈ (mockEvent 3 ["u1", "u2", "u3"]).rsvpList ∧
    toggleRSVP (some (mkUser "u2")) [mockEvent 3 ["u1", "u2", "u3"]]
        "test-event-1" 7 =
      Except.ok { rsvpListOp := ArrayOp.arrayRemove "u2"
                  rsvpCount := 2
                  updatedAt := 7 } := by
  have hfind : [mockEvent 3 ["u1", "u2", "u3"]].find?
      (fun x => x.id == "test-event-1") = some (mockEvent 3 ["u1", "u2", "u3"]) := by
    decide
  have hmem : (mkUser "u2").uid ∈ (mockEvent 3 ["u1", "u2", "u3"]).rsvpList := by
    decide
  have h := (C2_toggle_branches [mockEvent 3 ["u1", "u2", "u3"]] (mkUser "u2")
    "test-event-1" (mockEvent 3 ["u1", "u2", "u3"]) 7 hfind).1 hmem
  exact ⟨hfind, hmem, h.1⟩

/-! ## C3 -/

/-- C3 counterexample: decoding a document whose body carries an id field
does not give the backend-assigned identifier; the body id, spread after
the id assignment in the object literal, wins. -/
theorem C3_counterexample :
    (decodeDoc "backend-id" bodyIdDoc).id = "body-id" ∧
    (decodeDoc "backend-id" bodyIdDoc).id ≠ "backend-id" := by
  decide

/-- C3 amended: every field is copied verbatim except dateTime, createdAt
and updatedAt, which are converted with toDate; the decoded id equals the
backend-assigned identifier whenever the body has no id field of its own,
but a body id field overrides the backend identifier. -/
theorem C3_decode_contract (docId : String) (d : EventDoc) :
    (decodeDoc docId d).title = d.title ∧
    (decodeDoc docId d).type = d.type ∧
    (decodeDoc docId d).duration = d.duration ∧
    (decodeDoc docId d).location = d.location ∧
    (decodeDoc docId d).difficulty = d.difficulty ∧
    (decodeDoc docId d).imageURL = d.imageURL ∧
    (decodeDoc docId d).description = d.description ∧
    (decodeDoc docId d).shortDescription = d.shortDescription ∧
    (decodeDoc docId d).hostId = d.hostId ∧
    (decodeDoc docId d).hostName = d.hostName ∧
    (decodeDoc docId d).rsvpCount = d.rsvpCount ∧
    (decodeDoc docId d).rsvpList = d.rsvpList ∧
    (decodeDoc docId d).dateTime = d.dateTime.toDate ∧
    (decodeDoc docId d).createdAt = d.createdAt.toDate ∧
    (decodeDoc docId d).updatedAt = d.updatedAt.toDate ∧
    (d.bodyId = none → (decodeDoc docId d).id = docId) ∧
    (∀ i, d.bodyId = some i → (decodeDoc docId d).id = i) := by
  refine ⟨rfl, rfl, rfl, rfl, rfl, rfl, rfl, rfl, rfl, rfl, rfl, rfl, rfl, rfl,
    rfl, ?_, ?_⟩
  · intro h
    unfold decodeDoc
    rw [h]
  · intro i h
    unfold decodeDoc
    rw [h]

/-- C3 witness: both id hypotheses fire on concrete documents, and a
sample verbatim copy holds. -/
theorem C3_decode_contract_witness :
    plainDoc.bodyId = none ∧
    bodyIdDoc.bodyId = some "body-id" ∧
    (decodeDoc "backend-id" plainDoc).id = "backend-id" ∧
    (decodeDoc "backend-id" bodyIdDoc).id = "body-id" ∧
    (decodeDoc "backend-id" plainDoc).title = plainDoc.title := by
  obtain ⟨ht, -, -, -, -, -, -, -, -, -, -, -, -, -, -, hnone, -⟩ :=
    C3_decode_contract "backend-id" plainDoc
  obtain ⟨-, -, -, -, -, -, -, -, -, -, -, -, -, -, -, -, hsome⟩ :=
    C3_decode_contract "backend-id" bodyIdDoc
  exact ⟨rfl, rfl, hnone rfl, hsome "body-id" rfl, ht⟩

/-! ## C4 -/

/-- C4: processing a delivered snapshot replaces the in-memory list with
exactly the decoded snapshot (nothing of the previous list survives),
the result is sorted ascending by dateTime (the subscription query orders
the collection so the snapshot arrives sorted on the stored field), the
same decoded list overwrites the cache, and loading clears. -/
theorem C4_snapshot_replacement (st : ProviderState) (docs : List SnapshotDoc)
    (hs : snapshotSorted docs) :
    (onSnapshotNext st docs).events = decodeSnapshot docs ∧
    eventsSorted (onSnapshotNext st docs).events ∧
    (onSnapshotNext st docs).cache = some (decodeSnapshot docs) ∧
    (onSnapshotNext st docs).loading = false := by
  refine ⟨rfl, ?_, rfl, rfl⟩
  show eventsSorted (decodeSnapshot docs)
  unfold eventsSorted decodeSnapshot
  unfold snapshotSorted at hs
  exact List.Pairwise.map _ (fun a b hab => hab) hs

/-- C4 witness: a two-document sorted snapshot processed over a nonempty
stale state. -/
theorem C4_snapshot_replacement_witness :
    snapshotSorted [⟨"a", plainDoc⟩,
      ⟨"b", { plainDoc with dateTime := { millis := 2000 } }⟩] ∧
    (onSnapshotNext
        { events := [mockEvent 2 ["user1", "user2"]], loading := true, cache := none }
        [⟨"a", plainDoc⟩,
          ⟨"b", { plainDoc with dateTime := { millis := 2000 } }⟩]).events =
      decodeSnapshot [⟨"a", plainDoc⟩,
        ⟨"b", { plainDoc with dateTime := { millis := 2000 } }⟩] ∧
    eventsSorted (onSnapshotNext
        { events := [mockEvent 2 ["user1", "user2"]], loading := true, cache := none }
        [⟨"a", plainDoc⟩,
          ⟨"b", { plainDoc with dateTime := { millis := 2000 } }⟩]).events ∧
    (onSnapshotNext
        { events := [mockEvent 2 ["user1", "user2"]], loading := true, cache := none }
        [⟨"a", plainDoc⟩,
          ⟨"b", { plainDoc with dateTime := { millis := 2000 } }⟩]).cache =
      some (decodeSnapshot [⟨"a", plainDoc⟩,
        ⟨"b", { plainDoc with dateTime := { millis := 2000 } }⟩]) ∧
    (onSnapshotNext
        { events := [mockEvent 2 ["user1", "user2"]], loading := true, cache := none }
        [⟨"a", plainDoc⟩,
          ⟨"b", { plainDoc with dateTime := { millis := 2000 } }⟩]).loading = false := by
  have hs : snapshotSorted [⟨"a", plainDoc⟩,
      ⟨"b", { plainDoc with dateTime := { millis := 2000 } }⟩] := by
    unfold snapshotSorted
    decide
  have h := C4_snapshot_replacement
    { events := [mockEvent 2 ["user1", "user2"]], loading := true, cache := none }
    [⟨"a", plainDoc⟩, ⟨"b", { plainDoc with dateTime := { millis := 2000 } }⟩] hs
  exact ⟨hs, h.1, h.2.1, h.2.2.1, h.2.2.2⟩

/-! ## C5 -/

/-- C5: toggleRSVP with a null caller fails with the
AuthenticationRequired error, and with an id absent from the in-memory
list fails with the NotFound error; in both cases no write is issued and
the provider state (in particular the in-memory list) is unchanged. -/
theorem C5_toggle_errors (st : ProviderState) (eventId : String) (now : Millis) :
    toggleRSVPRun st none eventId now =
      (Except.error (AppError.authenticationRequired "User must be logged in"),
        st, []) ∧
    ∀ u : User, st.events.find? (fun e => e.id == eventId) = none →
      toggleRSVPRun st (some u) eventId now =
        (Except.error (AppError.notFound "Event not found"), st, []) := by
  constructor
  · rfl
  · intro u hnone
    unfold toggleRSVPRun toggleRSVP
    rw [hnone]

/-- C5 witness: on the empty in-memory list, the null-caller case and the
absent-id case both return the stated errors without a write. -/
theorem C5_toggle_errors_witness :
    ({ events := [], loading := true, cache := none } :
        ProviderState).events.find? (fun e => e.id == "e1") = none ∧
    toggleRSVPRun { events := [], loading := true, cache := none } none "e1" 0 =
      (Except.error (AppError.authenticationRequired "User must be logged in"),
        { events := [], loading := true, cache := none }, []) ∧
    toggleRSVPRun { events := [], loading := true, cache := none }
        (some (mkUser "x")) "e1" 0 =
      (Except.error (AppError.notFound "Event not found"),
        { events := [], loading := true, cache := none }, []) :=
  ⟨rfl,
    (C5_toggle_errors { events := [], loading := true, cache := none } "e1" 0).1,
    (C5_toggle_errors { events := [], loading := true, cache := none } "e1" 0).2
      (mkUser "x") rfl⟩

/-! ## C6 -/

/-- C6: the search and filter projection is idempotent: applying the
pipeline twice with the same query and filter configuration returns the
same list as applying it once. -/
theorem C6_filter_idempotent (l : List Event) (q : String) (f : Filters) :
    applyFilters (applyFilters l q f) q f = applyFilters l q f := by
  simp only [applyFilters_eq_filter]
  rw [List.filter_filter]
  exact List.filter_congr fun a _ => Bool.and_self (totalPred q f a)

/-! ## C7 -/

/-- C7: with both a type and a difficulty set (and no search text or date
range), the pipeline equals the intersection of the type-only projection
with the difficulty-only projection, in the input order. -/
theorem C7_filter_compose (l : List Event) (T : EventType) (D : DifficultyLevel) :
    applyFilters l "" { type := some T, difficulty := some D, dateRange := none } =
      (applyFilters l "" { type := some T, difficulty := none, dateRange := none }).inter
        (applyFilters l "" { type := none, difficulty := some D, dateRange := none }) := by
  have htrim : jsTrim "" = "" := by decide
  simp only [applyFilters_eq_filter]
  unfold List.inter
  rw [List.filter_filter]
  refine List.filter_congr fun a ha => ?_
  simp [totalPred, htrim, List.mem_filter, ha]
  rw [Bool.and_comm]
  rfl

/-! ## C8 -/

/-- C8: cache hydration never raises: every possible cache content is
handled (the parse failure is absorbed by the catch), an absent key or a
corrupt blob leaves the whole state, in particular the in-memory list,
unchanged, and a valid blob installs the revived events. -/
theorem C8_cache_hydration (st : ProviderState) (read : CachedRead) :
    ((read = CachedRead.absent ∨ read = CachedRead.corrupt) →
      loadCachedEvents st read = st) ∧
    (∀ stored, read = CachedRead.valid stored →
      loadCachedEvents st read = { st with events := stored.map reviveStored }) := by
  constructor
  · rintro (rfl | rfl) <;> rfl
  · rintro stored rfl
    rfl

/-- C8 witness: a corrupt blob and an absent key leave a concrete state
untouched, and a valid one-event blob replaces the list. -/
theorem C8_cache_hydration_witness :
    loadCachedEvents { events := [], loading := true, cache := none }
        CachedRead.corrupt =
      { events := [], loading := true, cache := none } ∧
    loadCachedEvents { events := [], loading := true, cache := none }
        CachedRead.absent =
      { events := [], loading := true, cache := none } :=
  ⟨(C8_cache_hydration { events := [], loading := true, cache := none }
      CachedRead.corrupt).1 (Or.inr rfl),
    (C8_cache_hydration { events := [], loading := true, cache := none }
      CachedRead.absent).1 (Or.inl rfl)⟩

/-! ## C9 -/

/-- C9 counterexample: refreshEvents does not leave the loading flag
unchanged: on a settled state (loading = false) it sets loading back to
true (the source calls setLoading(true) and nothing else). -/
theorem C9_counterexample :
    (refreshEventsRun { events := [], loading := false, cache := none }).1.loading ≠
      ({ events := [], loading := false, cache := none } : ProviderState).loading := by
  decide

/-- C9 amended: refreshEvents issues no fetch or write and leaves the
in-memory list and the cache unchanged, but sets the loading flag to true
(there is no separate error state to clear). -/
theorem C9_refresh_frame (st : ProviderState) :
    (refreshEventsRun st).1.events = st.events ∧
    (refreshEventsRun st).1.cache = st.cache ∧
    (refreshEventsRun st).1.loading = true ∧
    (refreshEventsRun st).2 = [] :=
  ⟨rfl, rfl, rfl, rfl⟩

/-! ## C10 -/

/-- C10: createEvent rejects a null caller and a non-organizer caller
without writing anything, and otherwise writes one document whose
attendance fields are born consistent (count 0, empty list) and whose
host fields come from the caller. -/
theorem C10_createEvent (d : EventInput) (now : Millis) :
    createEvent none d now =
      (Except.error (AppError.authenticationRequired "User must be logged in"),
        []) ∧
    (∀ u : User, u.role ≠ Role.organizer →
      createEvent (some u) d now =
        (Except.error (AppError.permissionDenied "Only organizers can create events"),
          [])) ∧
    (∀ u : User, u.role = Role.organizer →
      createEvent (some u) d now =
        (Except.ok (newEvent u d now), [BackendOp.addEvent (newEvent u d now)]) ∧
      (newEvent u d now).rsvpCount = 0 ∧
      (newEvent u d now).rsvpList = [] ∧
      (newEvent u d now).hostId = u.uid ∧
      (newEvent u d now).hostName = u.displayName ∧
      (newEvent u d now).rsvpCount = ((newEvent u d now).rsvpList.length : Int)) := by
  refine ⟨rfl, ?_, ?_⟩
  · intro u hr
    unfold createEvent
    simp [hr]
  · intro u hr
    refine ⟨?_, rfl, rfl, rfl, rfl, rfl⟩
    unfold createEvent
    simp [hr]

/-- C10 witness: the organizer path creates a consistent document and the
non-organizer path rejects, on concrete users and input. -/
theorem C10_createEvent_witness :
    (mkUser "plain").role ≠ Role.organizer ∧
    (mkOrganizer "org").role = Role.organizer ∧
    createEvent (some (mkUser "plain"))
        { title := "t", type := EventType.Run, dateTime := 0, duration := 30
          location := { address := "a"
                        coordinates := { latitude := 0, longitude := 0 } }
          difficulty := DifficultyLevel.Low, imageURL := none
          description := "d", shortDescription := "s" } 0 =
      (Except.error (AppError.permissionDenied "Only organizers can create events"),
        []) ∧
    (newEvent (mkOrganizer "org")
        { title := "t", type := EventType.Run, dateTime := 0, duration := 30
          location := { address := "a"
                        coordinates := { latitude := 0, longitude := 0 } }
          difficulty := DifficultyLevel.Low, imageURL := none
          description := "d", shortDescription := "s" } 0).rsvpCount =
      ((newEvent (mkOrganizer "org")
        { title := "t", type := EventType.Run, dateTime := 0, duration := 30
          location := { address := "a"
                        coordinates := { latitude := 0, longitude := 0 } }
          difficulty := DifficultyLevel.Low, imageURL := none
          description := "d", shortDescription := "s" } 0).rsvpList.length : Int) := by
  have hplain : (mkUser "plain").role ≠ Role.organizer := by decide
  have horg : (mkOrganizer "org").role = Role.organizer := by decide
  refine ⟨hplain, horg, ?_, ?_⟩
  · exact (C10_createEvent
      { title := "t", type := EventType.Run, dateTime := 0, duration := 30
        location := { address := "a"
                      coordinates := { latitude := 0, longitude := 0 } }
        difficulty := DifficultyLevel.Low, imageURL := none
        description := "d", shortDescription := "s" } 0).2.1 (mkUser "plain") hplain
  · exact ((C10_createEvent
      { title := "t", type := EventType.Run, dateTime := 0, duration := 30
        location := { address := "a"
                      coordinates := { latitude := 0, longitude := 0 } }
        difficulty := DifficultyLevel.Low, imageURL := none
        description := "d", shortDescription := "s" } 0).2.2 (mkOrganizer "org")
        horg).2.2.2.2.2

end SportsApp
